import Mathlib

/-!
Verification of the zelect gallery application's core logic.

The development shallowly embeds the program's pure logic:
* `toggleFavoritesList`, `toggleFavoriteInFirestore`, `onFavoritesChange`
  embed the favorites store (`firebaseService`), with the remote document
  store modelled as an association list from folder id to a favorites
  sequence and the backing transaction primitive's overall outcome
  (committed after its internal retries, or failed once they are
  exhausted) abstracted as a `TxOutcome` parameter.
* `getFiles` / `fetchLoop` embed the media lister (`driveService`), with
  the provider modelled as the list of page responses it would return,
  consumed in request order.
* `isFavorited`, `filteredItems`, `totalPages`, `visibleItems`,
  `clampPage` embed the gallery windowing logic of `GalleryView`.
* `handlePrev`, `handleNext`, `viewerStep` embed the detail viewer's
  index state machine (`DetailView`).

`DriveFile` and `Favorite` mirror the record shapes imported from
`types.ts`; their fields are exactly those the source reads and writes
(`id`, `name`, `thumbnailLink`, `mimeType` for files; `id`, `name` for
favorite entries).
-/

/-- A media file as returned by the Drive listing, with the fields the
source uses: `file.id`, `file.name`, `file.thumbnailLink`, `file.mimeType`. -/
structure DriveFile where
  id : String
  name : String
  thumbnailLink : String
  mimeType : String
deriving DecidableEq

/-- An entry of the shared favorites document: `{ id: file.id, name: file.name }`. -/
structure Favorite where
  id : String
  name : String
deriving DecidableEq

/-- The remote document store, one favorites document per folder id.
A folder id absent from the list models a document that does not exist. -/
abbrev Store := List (String × List Favorite)

/-- Reading a folder's favorites document: `docSnap.exists() ? docSnap.data().favorites || [] : []`
(a missing document or missing field reads as the empty sequence). -/
def getDoc (store : Store) (folderId : String) : List Favorite :=
  match store with
  | [] => []
  | (g, favs) :: rest => if g == folderId then favs else getDoc rest folderId

/-- Writing a folder's favorites document: `transaction.set(docRef, { favorites: newFavorites })`
creates the document if absent and overwrites it otherwise. -/
def setDoc (store : Store) (folderId : String) (favs : List Favorite) : Store :=
  (folderId, favs) :: store

/-- The pure body of the toggle transaction (firebaseService lines 80-84):
`isCurrentlyFavorite = currentFavorites.some(fav => fav.id === file.id)`,
then either `currentFavorites.filter(fav => fav.id !== file.id)` or
`[...currentFavorites, { id: file.id, name: file.name }]`. -/
def toggleFavoritesList (currentFavorites : List Favorite) (file : DriveFile) : List Favorite :=
  if currentFavorites.any (fun fav => fav.id == file.id) then
    currentFavorites.filter (fun fav => fav.id != file.id)
  else
    currentFavorites ++ [⟨file.id, file.name⟩]

/-- Overall outcome of `runTransaction`: either it commits (possibly after
internal retries) or its retry budget is exhausted and it rejects. -/
inductive TxOutcome
  | committed
  | failed
deriving DecidableEq

/-- Embedding of `toggleFavoriteInFirestore` (firebaseService lines 66-92).
`configured = false` models `!db` (early return). On a committed
transaction the document is replaced by `toggleFavoritesList` of its
current value; on a failed transaction the `catch` block logs the error
and the function resolves normally, so the returned promise outcome is
`Except.ok ()` on every path and the store is unchanged on failure. -/
def toggleFavoriteInFirestore (configured : Bool) (outcome : TxOutcome)
    (store : Store) (folderId : String) (file : DriveFile) :
    Store × Except String Unit :=
  if configured = false then
    (store, Except.ok ())
  else
    match outcome with
    | TxOutcome.committed =>
        (setDoc store folderId (toggleFavoritesList (getDoc store folderId) file),
         Except.ok ())
    | TxOutcome.failed =>
        (store, Except.ok ())

/-- Result of `onFavoritesChange`: either the no-op unsubscribe returned
when the store is unconfigured (`return () => {}`), or a live listener
whose first callback carries the current document value. -/
inductive Subscription
  | noopUnsubscribe
  | live (initial : List Favorite)
deriving DecidableEq

/-- Embedding of `onFavoritesChange` (firebaseService lines 38-58):
`if (!db) return () => {};` otherwise `onSnapshot` delivers the current
favorites (empty when the document does not exist). -/
def onFavoritesChange (configured : Bool) (store : Store) (folderId : String) :
    Subscription :=
  if configured = false then Subscription.noopUnsubscribe
  else Subscription.live (getDoc store folderId)

/-- A sequence of toggle operations applied to the store, each with its
folder, file and transaction outcome, via the configured service. -/
def runToggles (ops : List (String × DriveFile × TxOutcome)) (store : Store) : Store :=
  ops.foldl (fun s op => (toggleFavoriteInFirestore true op.2.2 s op.1 op.2.1).1) store

/-- Membership test used throughout: `favorites.some(fav => fav.id === id)`. -/
def isFavorited (favorites : List Favorite) (id : String) : Bool :=
  favorites.any (fun fav => fav.id == id)

/-- The set of favorited ids of a favorites sequence. -/
def idSet (favs : List Favorite) : Finset String :=
  (favs.map Favorite.id).toFinset

/-- Every favorites document in the store is duplicate-free on ids. -/
def storeNodup (store : Store) : Prop :=
  ∀ g, ((getDoc store g).map Favorite.id).Nodup

/-- The store after a successfully committed toggle transaction. -/
def committedToggle (store : Store) (folderId : String) (file : DriveFile) : Store :=
  (toggleFavoriteInFirestore true TxOutcome.committed store folderId file).1

/-- One response of the media-listing provider: HTTP success flag and status
text, the parsed `error.message` when the error body is JSON, the `files`
page (the source guards `if (data.files)`, so the field may be absent) and
the optional `nextPageToken`. -/
structure PageResponse where
  ok : Bool
  statusText : String
  errorMessage : Option String
  files : Option (List DriveFile)
  nextPageToken : Option String
deriving DecidableEq

/-- The message thrown for a failed page request (driveService lines 38-45):
`errorData.error?.message` when present, otherwise the statusText message. -/
def pageErrorMsg (r : PageResponse) : String :=
  match r.errorMessage with
  | some m => m
  | none => "Error fetching files: " ++ r.statusText

/-- JS truthiness of the continuation token in `while (pageToken)`:
`undefined` and the empty string both stop the loop. -/
def tokenPresent : Option String → Bool
  | none => false
  | some t => !t.isEmpty

/-- Embedding of the `do … while (pageToken)` loop of `getFiles`
(driveService lines 21-53), run against the list of responses the provider
returns in request order. Returns the accumulated files (or the thrown
error message) together with the number of page requests performed. An
exhausted response list while a token is still pending has no counterpart
in the source (a request always yields some response) and is modelled as a
failure. -/
def fetchLoop : List PageResponse → Except String (List DriveFile) × Nat
  | [] => (Except.error "provider returned no response", 0)
  | r :: rest =>
    if r.ok = false then
      (Except.error (pageErrorMsg r), 1)
    else if tokenPresent r.nextPageToken then
      match fetchLoop rest with
      | (Except.ok fs, n) => (Except.ok (r.files.getD [] ++ fs), n + 1)
      | (Except.error e, n) => (Except.error e, n + 1)
    else
      (Except.ok (r.files.getD []), 1)

/-- Embedding of `getFiles` (driveService lines 6-60): the API-key guard
`if (!API_KEY || API_KEY.startsWith("YOUR_")) throw`, then the pagination
loop. -/
def getFiles (apiKey : String) (responses : List PageResponse) :
    Except String (List DriveFile) × Nat :=
  if apiKey.isEmpty || apiKey.startsWith "YOUR_" then
    (Except.error
      "API key is not configured. Please set the GOOGLE_DRIVE_API_KEY in config.ts.", 0)
  else
    fetchLoop responses

/-- A provider run of exactly N pages: every request succeeds, every page
except the last carries a continuation token and the last does not. -/
def wellFormedPages : List PageResponse → Bool
  | [] => false
  | [r] => r.ok && !tokenPresent r.nextPageToken
  | r :: s :: rest => r.ok && tokenPresent r.nextPageToken && wellFormedPages (s :: rest)

/-- Gallery filtering (GalleryView lines 193-195):
`isFavoritesView ? allItems.filter(item => isFavorited(item.id)) : allItems`. -/
def filteredItems (isFavoritesView : Bool) (allItems : List DriveFile)
    (favorites : List Favorite) : List DriveFile :=
  if isFavoritesView then allItems.filter (fun item => isFavorited favorites item.id)
  else allItems

/-- `const ITEMS_PER_PAGE = 50` (GalleryView line 70). -/
def ITEMS_PER_PAGE : Nat := 50

/-- `Math.ceil(filteredItems.length / ITEMS_PER_PAGE)` (GalleryView line 197),
as the ceiling division on naturals. -/
def totalPages (filteredCount : Nat) : Nat :=
  (filteredCount + ITEMS_PER_PAGE - 1) / ITEMS_PER_PAGE

/-- `filteredItems.slice(start, start + ITEMS_PER_PAGE)` with
`start = (currentPage - 1) * ITEMS_PER_PAGE` (GalleryView lines 205-208). -/
def visibleItems (filtered : List DriveFile) (currentPage : Nat) : List DriveFile :=
  (filtered.drop ((currentPage - 1) * ITEMS_PER_PAGE)).take ITEMS_PER_PAGE

/-- The page-clamping effect (GalleryView lines 199-203):
`if (currentPage > totalPages && totalPages > 0) setCurrentPage(totalPages)`. -/
def clampPage (currentPage tp : Nat) : Nat :=
  if currentPage > tp ∧ tp > 0 then tp else currentPage

/-- `handlePrev` (DetailView lines 20-22): `i > 0 ? i - 1 : items.length - 1`. -/
def handlePrev (numItems i : Nat) : Nat :=
  if i > 0 then i - 1 else numItems - 1

/-- `handleNext` (DetailView lines 24-26): `i < items.length - 1 ? i + 1 : 0`. -/
def handleNext (numItems i : Nat) : Nat :=
  if i < numItems - 1 then i + 1 else 0

/-- The detail viewer's user actions that involve the current index. -/
inductive ViewerAction
  | next
  | prev
  | jumpTo (j : Nat)
  | toggleFav
deriving DecidableEq

/-- The index transition of the detail viewer: `Next`/`Prev` via the handlers,
`JumpTo` via a thumbnail click (`setCurrentIndex(index)`, DetailView line 124),
while the toggle-favorite handlers (space key, DetailView line 35, and the
heart button, line 114) call only `onToggleFavorite` and never
`setCurrentIndex`, so they leave the index unchanged. -/
def viewerStep (numItems : Nat) : ViewerAction → Nat → Nat
  | ViewerAction.next, i => handleNext numItems i
  | ViewerAction.prev, i => handlePrev numItems i
  | ViewerAction.jumpTo j, _ => j
  | ViewerAction.toggleFav, i => i

/-- The firestore call the `useFavorites` hook's `toggleFavorite` would make
(GalleryView lines 90-98): none when `!folderId || !isFirebaseConfigured`, or
when `allItems.find(f => f.id === id)` finds no file; otherwise the folder id
and file passed to `toggleFavoriteInFirestore`. -/
def firestoreTarget (folderId : Option String) (configured : Bool)
    (allItems : List DriveFile) (id : String) : Option (String × DriveFile) :=
  match folderId with
  | none => none
  | some fid =>
    if configured = false then none
    else
      match allItems.find? (fun f => f.id == id) with
      | none => none
      | some file => some (fid, file)

/-- Embedding of the hook-level `toggleFavorite` (GalleryView lines 90-98):
the guards and the lookup in `allItems`, then the awaited
`toggleFavoriteInFirestore` call when a target exists. -/
def toggleFavorite (folderId : Option String) (configured : Bool)
    (allItems : List DriveFile) (id : String) (outcome : TxOutcome)
    (store : Store) : Store × Except String Unit :=
  match firestoreTarget folderId configured allItems id with
  | none => (store, Except.ok ())
  | some (fid, file) => toggleFavoriteInFirestore configured outcome store fid file

theorem any_id_iff_mem (favs : List Favorite) (i : String) :
    (favs.any (fun fav => fav.id == i) = true) ↔ i ∈ favs.map Favorite.id := by
  rw [List.any_eq_true]
  constructor
  · rintro ⟨fav, hmem, hid⟩
    exact List.mem_map.mpr ⟨fav, hmem, by simpa using hid⟩
  · intro h
    rcases List.mem_map.mp h with ⟨fav, hmem, hid⟩
    exact ⟨fav, hmem, by simp [hid]⟩

theorem getDoc_setDoc_same (store : Store) (folderId : String) (favs : List Favorite) :
    getDoc (setDoc store folderId favs) folderId = favs := by
  simp [getDoc, setDoc]

theorem getDoc_setDoc_other (store : Store) (folderId g : String) (favs : List Favorite)
    (h : g ≠ folderId) : getDoc (setDoc store folderId favs) g = getDoc store g := by
  simp [getDoc, setDoc]
  intro h'
  exact absurd h'.symm h

theorem toggleFirestore_committed (store : Store) (folderId : String) (file : DriveFile) :
    (toggleFavoriteInFirestore true TxOutcome.committed store folderId file).1
      = setDoc store folderId (toggleFavoritesList (getDoc store folderId) file) := by
  simp [toggleFavoriteInFirestore]

theorem toggle_of_mem (favs : List Favorite) (file : DriveFile)
    (h : file.id ∈ favs.map Favorite.id) :
    toggleFavoritesList favs file = favs.filter (fun fav => fav.id != file.id) := by
  rw [toggleFavoritesList, if_pos ((any_id_iff_mem favs file.id).mpr h)]

theorem toggle_of_not_mem (favs : List Favorite) (file : DriveFile)
    (h : file.id ∉ favs.map Favorite.id) :
    toggleFavoritesList favs file = favs ++ [⟨file.id, file.name⟩] := by
  rw [toggleFavoritesList, if_neg]
  intro hc
  exact h ((any_id_iff_mem favs file.id).mp hc)

example :
    toggleFavoritesList [⟨"a", "x"⟩, ⟨"b", "y"⟩] ⟨"a", "x", "t", "image/jpeg"⟩
      = [⟨"b", "y"⟩] := by decide

example :
    toggleFavoritesList [⟨"b", "y"⟩] ⟨"a", "x", "t", "image/jpeg"⟩
      = [⟨"b", "y"⟩, ⟨"a", "x"⟩] := by decide

theorem committedToggle_getDoc (store : Store) (folderId : String) (file : DriveFile) :
    getDoc (committedToggle store folderId file) folderId
      = toggleFavoritesList (getDoc store folderId) file := by
  rw [committedToggle, toggleFirestore_committed, getDoc_setDoc_same]

theorem filter_ne_toggle (favs : List Favorite) (file : DriveFile) :
    (toggleFavoritesList favs file).filter (fun fav => fav.id != file.id)
      = favs.filter (fun fav => fav.id != file.id) := by
  by_cases hm : file.id ∈ favs.map Favorite.id
  · rw [toggle_of_mem favs file hm, List.filter_filter]
    simp
  · rw [toggle_of_not_mem favs file hm, List.filter_append]
    simp

theorem mem_toggle_iff (favs : List Favorite) (file : DriveFile) :
    file.id ∈ (toggleFavoritesList favs file).map Favorite.id
      ↔ file.id ∉ favs.map Favorite.id := by
  by_cases hm : file.id ∈ favs.map Favorite.id
  · rw [toggle_of_mem favs file hm]
    simp only [hm, not_true, iff_false]
    intro hc
    rcases List.mem_map.mp hc with ⟨fav, hfav, hid⟩
    have h2 := (List.mem_filter.mp hfav).2
    rw [hid] at h2
    simp at h2
  · rw [toggle_of_not_mem favs file hm]
    simp [hm]

theorem toggle_sublist_of_mem (favs : List Favorite) (file : DriveFile)
    (h : file.id ∈ favs.map Favorite.id) :
    List.Sublist (toggleFavoritesList favs file) favs := by
  rw [toggle_of_mem favs file h]
  exact List.filter_sublist favs

theorem toggle_nodup (favs : List Favorite) (file : DriveFile)
    (h : (favs.map Favorite.id).Nodup) :
    ((toggleFavoritesList favs file).map Favorite.id).Nodup := by
  by_cases hm : file.id ∈ favs.map Favorite.id
  · exact h.sublist ((toggle_sublist_of_mem favs file hm).map Favorite.id)
  · rw [toggle_of_not_mem favs file hm, List.map_append]
    simp [List.nodup_append, h, hm]

theorem storeNodup_step (store : Store) (h : storeNodup store)
    (folderId : String) (file : DriveFile) (outcome : TxOutcome) :
    storeNodup (toggleFavoriteInFirestore true outcome store folderId file).1 := by
  cases outcome with
  | committed =>
    intro g
    rw [toggleFirestore_committed]
    by_cases hg : g = folderId
    · subst hg
      rw [getDoc_setDoc_same]
      exact toggle_nodup _ _ (h g)
    · rw [getDoc_setDoc_other _ _ _ _ hg]
      exact h g
  | failed =>
    simpa [toggleFavoriteInFirestore] using h

theorem storeNodup_runToggles (ops : List (String × DriveFile × TxOutcome))
    (store : Store) (h : storeNodup store) : storeNodup (runToggles ops store) := by
  induction ops generalizing store with
  | nil => simpa [runToggles] using h
  | cons op rest ih =>
    simp only [runToggles, List.foldl_cons] at ih ⊢
    exact ih _ (storeNodup_step store h op.1 op.2.1 op.2.2)

theorem storeNodup_empty : storeNodup ([] : Store) := by
  intro g
  simp [getDoc]

theorem mem_idSet (favs : List Favorite) (x : String) :
    x ∈ idSet favs ↔ ∃ fav ∈ favs, fav.id = x := by
  simp [idSet, List.mem_toFinset, List.mem_map]

theorem idSet_filter_ne (favs : List Favorite) (file : DriveFile) :
    idSet (favs.filter (fun fav => fav.id != file.id)) = (idSet favs).erase file.id := by
  ext x
  simp only [mem_idSet, List.mem_filter, Finset.mem_erase]
  constructor
  · rintro ⟨fav, ⟨hf, hne⟩, rfl⟩
    exact ⟨by simpa using hne, fav, hf, rfl⟩
  · rintro ⟨hne, fav, hf, rfl⟩
    exact ⟨fav, ⟨hf, by simpa using hne⟩, rfl⟩

theorem idSet_append_single (favs : List Favorite) (e : Favorite) :
    idSet (favs ++ [e]) = insert e.id (idSet favs) := by
  ext x
  simp only [mem_idSet, List.mem_append, List.mem_singleton, Finset.mem_insert]
  constructor
  · rintro ⟨fav, hf | rfl, rfl⟩
    · exact Or.inr ⟨fav, hf, rfl⟩
    · exact Or.inl rfl
  · rintro (rfl | ⟨fav, hf, rfl⟩)
    · exact ⟨e, Or.inr rfl, rfl⟩
    · exact ⟨fav, Or.inl hf, rfl⟩

theorem toggle_toggle_ids (favs : List Favorite) (file : DriveFile) :
    idSet (toggleFavoritesList (toggleFavoritesList favs file) file) = idSet favs := by
  by_cases hm : file.id ∈ favs.map Favorite.id
  · have h2 : file.id ∉ (toggleFavoritesList favs file).map Favorite.id := by
      rw [mem_toggle_iff favs file]
      exact not_not_intro hm
    rw [toggle_of_not_mem _ file h2, idSet_append_single, toggle_of_mem favs file hm,
      idSet_filter_ne]
    exact Finset.insert_erase (by rw [idSet, List.mem_toFinset]; exact hm)
  · have h2 : file.id ∈ (toggleFavoritesList favs file).map Favorite.id :=
      (mem_toggle_iff favs file).mpr hm
    rw [toggle_of_mem _ file h2, toggle_of_not_mem favs file hm, List.filter_append]
    have h3 : favs.filter (fun fav => fav.id != file.id) = favs := by
      rw [List.filter_eq_self]
      intro fav hf
      simp only [bne_iff_ne, ne_eq]
      intro hc
      exact hm (List.mem_map.mpr ⟨fav, hf, hc⟩)
    simp [h3]

/-- C1: `toggleFavorite` performs a read-modify-write on the shared favorites
document: for every folder and every item it reads the current favorites
sequence, tests membership of `item.id`, and produces a new sequence in which
the entry is removed if it was present (the result is a sublist, nothing
appended) and appended if it was absent (nothing removed) — exactly one of
removal or append happens, membership flips, entries with any other id are
preserved unchanged, and no other folder's document is touched. -/
theorem toggleFavoriteInFirestore_read_modify_write
    (store : Store) (folderId : String) (file : DriveFile) :
    (file.id ∈ (getDoc store folderId).map Favorite.id →
      getDoc (committedToggle store folderId file) folderId
          = (getDoc store folderId).filter (fun fav => fav.id != file.id) ∧
        List.Sublist (getDoc (committedToggle store folderId file) folderId)
          (getDoc store folderId)) ∧
    (file.id ∉ (getDoc store folderId).map Favorite.id →
      getDoc (committedToggle store folderId file) folderId
        = getDoc store folderId ++ [⟨file.id, file.name⟩]) ∧
    ((getDoc (committedToggle store folderId file) folderId).filter
        (fun fav => fav.id != file.id)
      = (getDoc store folderId).filter (fun fav => fav.id != file.id)) ∧
    (file.id ∈ (getDoc (committedToggle store folderId file) folderId).map Favorite.id
      ↔ file.id ∉ (getDoc store folderId).map Favorite.id) ∧
    (∀ g, g ≠ folderId →
      getDoc (committedToggle store folderId file) g = getDoc store g) := by
  refine ⟨?_, ?_, ?_, ?_, ?_⟩
  · intro h
    rw [committedToggle_getDoc]
    exact ⟨toggle_of_mem _ _ h, toggle_sublist_of_mem _ _ h⟩
  · intro h
    rw [committedToggle_getDoc]
    exact toggle_of_not_mem _ _ h
  · rw [committedToggle_getDoc]
    exact filter_ne_toggle _ _
  · rw [committedToggle_getDoc]
    exact mem_toggle_iff _ _
  · intro g hg
    rw [committedToggle, toggleFirestore_committed]
    exact getDoc_setDoc_other _ _ _ _ hg

/-- Witness for C1 at a concrete store: toggling an already favorited item
removes it, and a different folder's document is untouched. -/
theorem toggleFavoriteInFirestore_read_modify_write_witness :
    getDoc (committedToggle [("f", [⟨"a", "x"⟩])] "f" ⟨"a", "x", "t", "image/jpeg"⟩) "f"
        = [] ∧
      getDoc (committedToggle [("f", [⟨"a", "x"⟩])] "f" ⟨"a", "x", "t", "image/jpeg"⟩) "g"
        = getDoc [("f", [⟨"a", "x"⟩])] "g" := by
  constructor
  · have h := (toggleFavoriteInFirestore_read_modify_write
        [("f", [⟨"a", "x"⟩])] "f" ⟨"a", "x", "t", "image/jpeg"⟩).1 (by decide)
    rw [h.1]
    decide
  · exact (toggleFavoriteInFirestore_read_modify_write
        [("f", [⟨"a", "x"⟩])] "f" ⟨"a", "x", "t", "image/jpeg"⟩).2.2.2.2 "g" (by decide)

/-- C2 counterexample: when the transaction's retry budget is exhausted the
claim says `toggleFavorite` fails with `SyncError`; in the source the `catch`
block only logs the error, so at this concrete input the call resolves
without any error value. -/
theorem toggleFavoriteInFirestore_failed_no_error :
    ¬ ∃ e, (toggleFavoriteInFirestore true TxOutcome.failed [] "folder"
        ⟨"a", "x", "t", "image/jpeg"⟩).2 = Except.error e := by
  rintro ⟨e, h⟩
  simp [toggleFavoriteInFirestore] at h

/-- C2 (amended): if the toggle-favorite transaction cannot commit, the error
is caught and logged and the call resolves without surfacing an error, and the
remote state is unchanged on that failure (no optimistic mutation occurred). -/
theorem toggleFavoriteInFirestore_failed_swallowed
    (store : Store) (folderId : String) (file : DriveFile) :
    toggleFavoriteInFirestore true TxOutcome.failed store folderId file
      = (store, Except.ok ()) := by
  simp [toggleFavoriteInFirestore]

/-- C3: for every favorites document and every item, applying the toggle
transaction twice with the same item returns the document to the original set
of favorited ids. -/
theorem toggleFavorite_roundtrip (store : Store) (folderId : String) (file : DriveFile) :
    idSet (getDoc (committedToggle (committedToggle store folderId file) folderId file)
        folderId)
      = idSet (getDoc store folderId) := by
  rw [committedToggle_getDoc, committedToggle_getDoc]
  exact toggle_toggle_ids _ _

/-- C5: when the favorites backing store is unconfigured, `onFavoritesChange`
returns the no-op unsubscribe and `toggleFavoriteInFirestore` resolves without
error and without mutating any remote state. -/
theorem unconfigured_degrades_to_noop (store : Store) (folderId : String)
    (file : DriveFile) (outcome : TxOutcome) :
    onFavoritesChange false store folderId = Subscription.noopUnsubscribe ∧
    toggleFavoriteInFirestore false outcome store folderId file
      = (store, Except.ok ()) := by
  exact ⟨rfl, rfl⟩

/-- C9: every favorites document is a set keyed by id: starting from any store
whose documents are duplicate-free (in particular the empty store, where every
document is nonexistent), any sequence of toggle operations preserves the
no-duplicate-ids invariant of every document. -/
theorem favorites_nodup_invariant :
    (∀ store, storeNodup store → ∀ ops, storeNodup (runToggles ops store)) ∧
    (∀ ops g, ((getDoc (runToggles ops ([] : Store)) g).map Favorite.id).Nodup) := by
  constructor
  · intro store h ops
    exact storeNodup_runToggles ops store h
  · intro ops g
    exact storeNodup_runToggles ops [] storeNodup_empty g

/-- Witness for C9: a concrete duplicate-free store stays duplicate-free after
a concrete toggle. -/
theorem favorites_nodup_invariant_witness :
    ((getDoc (runToggles [("f", ⟨"a", "x", "t", "image/jpeg"⟩, TxOutcome.committed)]
        [("f", [⟨"b", "y"⟩])]) "f").map Favorite.id).Nodup := by
  have hstore : storeNodup [("f", [⟨"b", "y"⟩])] := by
    intro g
    by_cases hg : (("f" : String) == g) = true <;> simp [getDoc, hg]
  exact favorites_nodup_invariant.1 [("f", [⟨"b", "y"⟩])] hstore
    [("f", ⟨"a", "x", "t", "image/jpeg"⟩, TxOutcome.committed)] "f"

example : (("AIza" : String).isEmpty || "AIza".startsWith "YOUR_") = false := by decide

theorem fetchLoop_cons (r : PageResponse) (rest : List PageResponse) :
    fetchLoop (r :: rest)
      = if r.ok = false then (Except.error (pageErrorMsg r), 1)
        else if tokenPresent r.nextPageToken then
          match fetchLoop rest with
          | (Except.ok fs, n) => (Except.ok (r.files.getD [] ++ fs), n + 1)
          | (Except.error e, n) => (Except.error e, n + 1)
        else (Except.ok (r.files.getD []), 1) := rfl

theorem fetchLoop_wellFormed :
    ∀ responses : List PageResponse, wellFormedPages responses = true →
      fetchLoop responses
        = (Except.ok (responses.map (fun r => r.files.getD [])).flatten, responses.length)
  | [], h => by simp [wellFormedPages] at h
  | [r], h => by
      simp only [wellFormedPages, Bool.and_eq_true, Bool.not_eq_true'] at h
      obtain ⟨hok, htok⟩ := h
      simp [fetchLoop, hok, htok]
  | r :: s :: rest, h => by
      simp only [wellFormedPages, Bool.and_eq_true] at h
      have ih := fetchLoop_wellFormed (s :: rest) h.2
      rw [fetchLoop_cons, if_neg (by simp [h.1.1]), if_pos h.1.2, ih]
      simp

theorem fetchLoop_failure :
    ∀ (pre : List PageResponse) (bad : PageResponse) (rest : List PageResponse),
      (∀ r ∈ pre, r.ok = true ∧ tokenPresent r.nextPageToken = true) →
      bad.ok = false →
      fetchLoop (pre ++ bad :: rest) = (Except.error (pageErrorMsg bad), pre.length + 1)
  | [], bad, rest, _, hbad => by simp [fetchLoop, hbad]
  | p :: pre, bad, rest, hpre, hbad => by
      have hp := hpre p (by simp)
      have ih := fetchLoop_failure pre bad rest (fun r hr => hpre r (by simp [hr])) hbad
      simp [fetchLoop, hp.1, hp.2, ih]

/-- C4: with a configured API key, for a provider holding N pages (every page
but the last carrying a continuation token), `getFiles` returns exactly the
concatenation of all N pages and performs exactly N page requests; and if a
page request fails after a prefix of token-carrying successful pages, the
whole operation fails with that page's error and the already fetched pages
are discarded — no partial result is returned. -/
theorem getFiles_pagination :
    (∀ (key : String) (responses : List PageResponse),
      (key.isEmpty || key.startsWith "YOUR_") = false →
      wellFormedPages responses = true →
      getFiles key responses
        = (Except.ok (responses.map (fun r => r.files.getD [])).flatten,
           responses.length)) ∧
    (∀ (key : String) (pre : List PageResponse) (bad : PageResponse)
        (rest : List PageResponse),
      (key.isEmpty || key.startsWith "YOUR_") = false →
      (∀ r ∈ pre, r.ok = true ∧ tokenPresent r.nextPageToken = true) →
      bad.ok = false →
      getFiles key (pre ++ bad :: rest)
        = (Except.error (pageErrorMsg bad), pre.length + 1)) := by
  constructor
  · intro key responses hkey hwf
    rw [getFiles, if_neg (by simp [hkey])]
    exact fetchLoop_wellFormed responses hwf
  · intro key pre bad rest hkey hpre hbad
    rw [getFiles, if_neg (by simp [hkey])]
    exact fetchLoop_failure pre bad rest hpre hbad

/-- Witness for C4: a concrete two-page listing is fully accumulated in two
requests, and a failure on the second request discards the first page. -/
theorem getFiles_pagination_witness :
    getFiles "AIza"
        [⟨true, "OK", none, some [⟨"a", "x", "t", "image/jpeg"⟩], some "tok"⟩,
         ⟨true, "OK", none, some [⟨"b", "y", "t", "video/mp4"⟩], none⟩]
      = (Except.ok [⟨"a", "x", "t", "image/jpeg"⟩, ⟨"b", "y", "t", "video/mp4"⟩], 2) ∧
    getFiles "AIza"
        [⟨true, "OK", none, some [⟨"a", "x", "t", "image/jpeg"⟩], some "tok"⟩,
         ⟨false, "Forbidden", some "Rate limit exceeded", none, none⟩]
      = (Except.error "Rate limit exceeded", 2) := by
  constructor
  · have h := getFiles_pagination.1 "AIza"
        [⟨true, "OK", none, some [⟨"a", "x", "t", "image/jpeg"⟩], some "tok"⟩,
         ⟨true, "OK", none, some [⟨"b", "y", "t", "video/mp4"⟩], none⟩]
        (by decide) (by decide)
    rw [h]
    simp
  · have h := getFiles_pagination.2 "AIza"
        [⟨true, "OK", none, some [⟨"a", "x", "t", "image/jpeg"⟩], some "tok"⟩]
        ⟨false, "Forbidden", some "Rate limit exceeded", none, none⟩ []
        (by decide) (by decide) (by decide)
    simpa using h

/-- C7: gallery pagination. Page `p` (1-based) shows exactly the items of the
filtered sequence at indices `[(p-1)*ITEMS_PER_PAGE, p*ITEMS_PER_PAGE)` and
nothing else; `totalPages` is the ceiling of `filteredCount / ITEMS_PER_PAGE`
(the least page count covering all items); the page index is clamped downward
to `totalPages` whenever it exceeds a positive `totalPages`, while at
`filteredCount = 0` the clamp leaves the page state untouched (one page's
worth of UI state remains); concretely for `filteredCount = 120`:
`totalPages = 3`, page 3 has exactly 20 items and a requested page 4 clamps
to page 3. -/
theorem gallery_pagination :
    (∀ (filtered : List DriveFile) (p i : Nat), i < ITEMS_PER_PAGE →
      (visibleItems filtered p)[i]? = filtered[(p - 1) * ITEMS_PER_PAGE + i]?) ∧
    (∀ (filtered : List DriveFile) (p i : Nat), ITEMS_PER_PAGE ≤ i →
      (visibleItems filtered p)[i]? = none) ∧
    (∀ (filtered : List DriveFile) (p : Nat),
      (visibleItems filtered p).length
        = min ITEMS_PER_PAGE (filtered.length - (p - 1) * ITEMS_PER_PAGE)) ∧
    (∀ n, n ≤ totalPages n * ITEMS_PER_PAGE ∧
      totalPages n * ITEMS_PER_PAGE < n + ITEMS_PER_PAGE) ∧
    (∀ p tp, p > tp → tp > 0 → clampPage p tp = tp) ∧
    (∀ p, clampPage p 0 = p) ∧
    (totalPages 120 = 3 ∧
      (∀ filtered : List DriveFile, filtered.length = 120 →
        (visibleItems filtered 3).length = 20) ∧
      clampPage 4 3 = 3) := by
  refine ⟨?_, ?_, ?_, ?_, ?_, ?_, ?_, ?_, ?_⟩
  · intro filtered p i hi
    rw [visibleItems, List.getElem?_take_of_lt hi, List.getElem?_drop]
  · intro filtered p i hi
    exact List.getElem?_take_eq_none hi
  · intro filtered p
    rw [visibleItems, List.length_take, List.length_drop]
  · intro n
    simp only [totalPages, ITEMS_PER_PAGE]
    omega
  · intro p tp h1 h2
    rw [clampPage, if_pos ⟨h1, h2⟩]
  · intro p
    rw [clampPage, if_neg (by omega)]
  · decide
  · intro filtered hf
    simp [visibleItems, List.length_take, List.length_drop, hf, ITEMS_PER_PAGE]
  · decide

/-- Witness for C7 at a concrete 120-item list: page 3 shows item index 100
first, has 20 items, and page 4 clamps to page 3. -/
theorem gallery_pagination_witness :
    (visibleItems (List.replicate 120 ⟨"a", "x", "t", "image/jpeg"⟩) 3)[0]?
        = (List.replicate 120 (⟨"a", "x", "t", "image/jpeg"⟩ : DriveFile))[100]? ∧
    (visibleItems (List.replicate 120 ⟨"a", "x", "t", "image/jpeg"⟩) 3).length = 20 ∧
    clampPage 4 (totalPages 120) = 3 := by
  refine ⟨?_, ?_, ?_⟩
  · exact gallery_pagination.1 (List.replicate 120 ⟨"a", "x", "t", "image/jpeg"⟩) 3 0
      (by decide)
  · exact gallery_pagination.2.2.2.2.2.2.2.1 (List.replicate 120 ⟨"a", "x", "t", "image/jpeg"⟩)
      (by simp)
  · rw [gallery_pagination.2.2.2.2.2.2.1]
    exact gallery_pagination.2.2.2.2.1 4 (totalPages 120) (by decide) (by decide)

/-- C8: in the detail viewer over N items (N positive), `Next` from the last
index N-1 wraps to 0, `Prev` from 0 wraps to N-1, every other `Next`/`Prev`
moves by exactly one, and the toggle-favorite action never changes the
current index. -/
theorem detailViewer_navigation (numItems : Nat) (h : 0 < numItems) :
    handleNext numItems (numItems - 1) = 0 ∧
    handlePrev numItems 0 = numItems - 1 ∧
    (∀ i, i + 1 < numItems → handleNext numItems i = i + 1) ∧
    (∀ i, 0 < i → handlePrev numItems i = i - 1) ∧
    (∀ i, viewerStep numItems ViewerAction.toggleFav i = i) := by
  refine ⟨?_, ?_, ?_, ?_, ?_⟩
  · rw [handleNext, if_neg (by omega)]
  · rw [handlePrev, if_neg (by omega)]
  · intro i hi
    rw [handleNext, if_pos (by omega)]
  · intro i hi
    rw [handlePrev, if_pos hi]
  · intro i
    rfl

/-- Witness for C8 with three items: Next wraps 2 to 0, Prev wraps 0 to 2,
Next moves 0 to 1, Prev moves 2 to 1, toggling leaves index 1 alone. -/
theorem detailViewer_navigation_witness :
    handleNext 3 2 = 0 ∧ handlePrev 3 0 = 2 ∧ handleNext 3 0 = 1 ∧
      handlePrev 3 2 = 1 ∧ viewerStep 3 ViewerAction.toggleFav 1 = 1 := by
  have h := detailViewer_navigation 3 (by decide)
  exact ⟨h.1, h.2.1, h.2.2.1 0 (by decide), h.2.2.2.1 2 (by decide),
    h.2.2.2.2 1⟩

/-- C10: for an id that does not occur among the fetched items, the
hook-level `toggleFavorite` makes no firestore call at all (no remote read
or write) and resolves without error with the remote store untouched. -/
theorem toggleFavorite_unknown_id_noop (folderId : Option String) (configured : Bool)
    (allItems : List DriveFile) (id : String) (outcome : TxOutcome) (store : Store)
    (h : id ∉ allItems.map DriveFile.id) :
    firestoreTarget folderId configured allItems id = none ∧
    toggleFavorite folderId configured allItems id outcome store
      = (store, Except.ok ()) := by
  have hfind : allItems.find? (fun f => f.id == id) = none := by
    rw [List.find?_eq_none]
    intro f hf
    simp only [beq_iff_eq]
    intro hc
    exact h (List.mem_map.mpr ⟨f, hf, hc⟩)
  have htarget : firestoreTarget folderId configured allItems id = none := by
    cases folderId with
    | none => rfl
    | some fid =>
      by_cases hc : configured = false
      · simp [firestoreTarget, hc]
      · simp [firestoreTarget, hc, hfind]
  exact ⟨htarget, by simp [toggleFavorite, htarget]⟩

/-- Witness for C10: toggling an id absent from the two fetched items leaves
a concrete store untouched and makes no firestore call. -/
theorem toggleFavorite_unknown_id_noop_witness :
    firestoreTarget (some "f") true [⟨"a", "x", "t", "image/jpeg"⟩] "zzz" = none ∧
    toggleFavorite (some "f") true [⟨"a", "x", "t", "image/jpeg"⟩] "zzz"
        TxOutcome.committed [("f", [⟨"a", "x"⟩])]
      = ([("f", [⟨"a", "x"⟩])], Except.ok ()) := by
  exact toggleFavorite_unknown_id_noop (some "f") true [⟨"a", "x", "t", "image/jpeg"⟩]
    "zzz" TxOutcome.committed [("f", [⟨"a", "x"⟩])] (by decide)

theorem isFavorited_eq_any_map (favorites : List Favorite) (i : String) :
    isFavorited favorites i = (favorites.map Favorite.id).any (fun j => j == i) := by
  induction favorites with
  | nil => rfl
  | cons a l ih => simp only [isFavorited, List.map_cons, List.any_cons] at ih ⊢; rw [ih]

theorem filteredItems_map_id (allItems : List DriveFile) (favorites : List Favorite) :
    (allItems.filter (fun it => isFavorited favorites it.id)).map DriveFile.id
      = (allItems.map DriveFile.id).filter (fun i => isFavorited favorites i) := by
  induction allItems with
  | nil => rfl
  | cons a l ih =>
    by_cases h : isFavorited favorites a.id = true
    · simp only [List.filter_cons, List.map_cons, h, if_true, List.map_cons, ih]
    · rw [Bool.not_eq_true] at h
      simp only [List.filter_cons, List.map_cons, h, Bool.false_eq_true, if_false, ih]

theorem length_filter_card_inter (ids favIds : List String) (h : ids.Nodup) :
    (ids.filter (fun i => favIds.any (fun j => j == i))).length
      = (ids.toFinset ∩ favIds.toFinset).card := by
  induction ids with
  | nil => simp
  | cons a l ih =>
    rw [List.nodup_cons] at h
    obtain ⟨ha, hl⟩ := h
    by_cases hm : a ∈ favIds
    · have hany : (favIds.any (fun j => j == a)) = true := by
        rw [List.any_eq_true]
        exact ⟨a, hm, by simp⟩
      rw [List.filter_cons, if_pos hany, List.length_cons, ih hl, List.toFinset_cons,
        Finset.insert_inter_of_mem (List.mem_toFinset.mpr hm),
        Finset.card_insert_of_not_mem]
      intro hc
      exact ha (List.mem_toFinset.mp (Finset.mem_of_mem_inter_left hc))
    · have hany : (favIds.any (fun j => j == a)) = false := by
        rw [Bool.eq_false_iff]
        intro hc
        rw [List.any_eq_true] at hc
        obtain ⟨j, hj, hje⟩ := hc
        exact hm (by rwa [show j = a from by simpa using hje] at hj)
      rw [List.filter_cons, if_neg (by simp [hany]), ih hl, List.toFinset_cons,
        Finset.insert_inter_of_not_mem (by simpa using hm)]

/-- C6: gallery windowing with the favorites-only filter yields exactly the
subsequence of `allItems` whose ids are favorited — it is a sublist of
`allItems` (order preserved, not favorite-insertion order) whose ids are the
favorited ones in `allItems` order — and, since provider-assigned ids are
unique, its length equals the size of the intersection of `allItems`' ids
with the favorited ids. -/
theorem filteredItems_favoritesOnly (allItems : List DriveFile)
    (favorites : List Favorite)
    (hnd : (allItems.map DriveFile.id).Nodup) :
    List.Sublist (filteredItems true allItems favorites) allItems ∧
    (filteredItems true allItems favorites).map DriveFile.id
      = (allItems.map DriveFile.id).filter (fun i => isFavorited favorites i) ∧
    (filteredItems true allItems favorites).length
      = ((allItems.map DriveFile.id).toFinset
          ∩ (favorites.map Favorite.id).toFinset).card := by
  refine ⟨?_, ?_, ?_⟩
  · rw [filteredItems, if_pos rfl]
    exact List.filter_sublist allItems
  · rw [filteredItems, if_pos rfl]
    exact filteredItems_map_id allItems favorites
  · rw [filteredItems, if_pos rfl]
    have h1 : (allItems.filter (fun it => isFavorited favorites it.id)).length
        = ((allItems.filter (fun it => isFavorited favorites it.id)).map DriveFile.id).length := by
      rw [List.length_map]
    rw [h1, filteredItems_map_id allItems favorites]
    have h2 : (fun i => isFavorited favorites i)
        = fun i => (favorites.map Favorite.id).any (fun j => j == i) := by
      funext i
      exact isFavorited_eq_any_map favorites i
    rw [h2]
    exact length_filter_card_inter (allItems.map DriveFile.id)
      (favorites.map Favorite.id) hnd

/-- Witness for C6: two of three concrete items are favorited; the filtered
view keeps them in `allItems` order and has length 2. -/
theorem filteredItems_favoritesOnly_witness :
    filteredItems true
        [⟨"a", "x", "t", "image/jpeg"⟩, ⟨"b", "y", "t", "image/png"⟩,
         ⟨"c", "z", "t", "video/mp4"⟩]
        [⟨"c", "z"⟩, ⟨"a", "x"⟩]
      = [⟨"a", "x", "t", "image/jpeg"⟩, ⟨"c", "z", "t", "video/mp4"⟩] ∧
    (filteredItems true
        [⟨"a", "x", "t", "image/jpeg"⟩, ⟨"b", "y", "t", "image/png"⟩,
         ⟨"c", "z", "t", "video/mp4"⟩]
        [⟨"c", "z"⟩, ⟨"a", "x"⟩]).length
      = (((([⟨"a", "x", "t", "image/jpeg"⟩, ⟨"b", "y", "t", "image/png"⟩,
            ⟨"c", "z", "t", "video/mp4"⟩] : List DriveFile).map DriveFile.id).toFinset
          ∩ (([⟨"c", "z"⟩, ⟨"a", "x"⟩] : List Favorite).map Favorite.id).toFinset)).card := by
  constructor
  · decide
  · exact (filteredItems_favoritesOnly
        [⟨"a", "x", "t", "image/jpeg"⟩, ⟨"b", "y", "t", "image/png"⟩,
         ⟨"c", "z", "t", "video/mp4"⟩]
        [⟨"c", "z"⟩, ⟨"a", "x"⟩] (by decide)).2.2
